import Mathlib

/-!
A shallow embedding of the `ts-mini-apps` wrapper library: three accessor
components (`BackButton`, `MainButton`, `WebApp`) that validate inputs and
forward them to a host-injected global object.

Dynamically typed JavaScript inputs are modelled by `JSValue` (the primitive
values); a setter that may `throw` is modelled as a state-passing function
returning the (possibly unchanged) host state together with an optional
error, where `none` means normal return and `some e` means the exception `e`
was raised before any host write on that path.
-/

namespace TsMiniApps

/-- JavaScript primitive values, as far as the wrappers inspect them with
`typeof` and regex tests. -/
inductive JSValue where
  | str (s : String)
  | bool (b : Bool)
  | num (n : Int)
  | undef
  | null
deriving DecidableEq, Repr

/-- `typeof v === 'string'`. -/
def JSValue.isString : JSValue → Bool
  | .str _ => true
  | _ => false

/-- `typeof v === 'boolean'`. -/
def JSValue.isBoolean : JSValue → Bool
  | .bool _ => true
  | _ => false

/-- The decimal character of a digit below ten. -/
def digitChar : Nat → Char
  | 0 => '0'
  | 1 => '1'
  | 2 => '2'
  | 3 => '3'
  | 4 => '4'
  | 5 => '5'
  | 6 => '6'
  | 7 => '7'
  | 8 => '8'
  | 9 => '9'
  | _ => '0'

/-- Decimal digits with explicit fuel, so that the conversion reduces by
structural recursion. -/
def natDigitsAux : Nat → Nat → List Char
  | 0, _ => []
  | fuel + 1, n =>
      if n < 10 then [digitChar n]
      else natDigitsAux fuel (n / 10) ++ [digitChar (n % 10)]

/-- The decimal digits of a natural number, most significant first. -/
def natDigits (n : Nat) : List Char :=
  natDigitsAux (n + 1) n

/-- `String(v)`: the coercion JavaScript applies when a primitive value is
fed to `RegExp.prototype.test`. -/
def JSValue.toStr : JSValue → String
  | .str s => s
  | .bool true => "true"
  | .bool false => "false"
  | .num n => if n < 0 then ⟨'-' :: natDigits n.natAbs⟩ else ⟨natDigits n.natAbs⟩
  | .undef => "undefined"
  | .null => "null"

/-- The character class `[0-9A-Fa-f]` of the shared hex-color regex. -/
def isHexDigitChar (c : Char) : Bool :=
  (('0' ≤ c) && (c ≤ '9')) || (('A' ≤ c) && (c ≤ 'F')) || (('a' ≤ c) && (c ≤ 'f'))

/-- The regex `^#[0-9A-Fa-f]\x7b6\x7d$` as a matcher on the character list of
the (coerced) subject string: an anchored literal `#` followed by exactly six
characters of the class, then end of input. -/
def hexColorMatch : List Char → Bool
  | ['#', c1, c2, c3, c4, c5, c6] =>
      isHexDigitChar c1 && isHexDigitChar c2 && isHexDigitChar c3 &&
      isHexDigitChar c4 && isHexDigitChar c5 && isHexDigitChar c6
  | _ => false

/-- The error kinds of `src/errors`: `TypeError`, `ValueError`, and the plain
`Error` the constructors throw when the host capability chain is absent. -/
inductive JSError where
  | typeError (msg : String)
  | valueError (msg : String)
  | fatalError (msg : String)
deriving DecidableEq, Repr

/-- A click handler registered with a host button: either a user callback
(identified by a number standing for its function identity) or the wrapper
closure `handleClick` that `onceClick` creates around user callback `i`. -/
inductive Handler where
  | user (i : Nat)
  | onceWrapper (i : Nat)
deriving DecidableEq, Repr

/-- The user callback a handler invokes when the host dispatches a click. -/
def Handler.cbId : Handler → Nat
  | .user i => i
  | .onceWrapper i => i

/-- Host-side click machinery: the list of registered handlers, plus the log
of user-callback invocations performed so far (one entry per call). -/
structure ClickState where
  registry : List Handler
  calls : List Nat
deriving DecidableEq, Repr

/-- Running one handler. A `user` callback only records its invocation; the
`onceWrapper` closure from the source's `onceClick` invokes its user callback
and then deregisters itself via `offClick` (identity-based removal of the
first matching registration). -/
def runHandler (s : ClickState) (h : Handler) : ClickState :=
  match h with
  | .user i => { s with calls := s.calls ++ [i] }
  | .onceWrapper i =>
      { registry := s.registry.erase (Handler.onceWrapper i),
        calls := s.calls ++ [i] }

/-- A click event: the host dispatches, in order, every handler registered
when the event fires. -/
def clickEvent (s : ClickState) : ClickState :=
  s.registry.foldl runHandler s

/-- `onClick(cb)`: register a callback with the host's event mechanism. -/
def onClick (s : ClickState) (h : Handler) : ClickState :=
  { s with registry := s.registry ++ [h] }

/-- `offClick(cb)`: identity-based removal of a registered callback. -/
def offClick (s : ClickState) (h : Handler) : ClickState :=
  { s with registry := s.registry.erase h }

/-- `onceClick(cb)` from the source: register the self-removing wrapper
closure around user callback `i`. -/
def onceClick (s : ClickState) (i : Nat) : ClickState :=
  onClick s (Handler.onceWrapper i)

/-- The host back-button handle (`Telegram.WebApp.BackButton`). -/
structure HostBackButton where
  isVisible : Bool
deriving DecidableEq, Repr

/-- The optional-field argument of `MainButton.setParams`; a field holds
`JSValue.undef` when absent. -/
structure MainButtonParams where
  text : JSValue
  color : JSValue
  text_color : JSValue
  is_active : JSValue
  is_visible : JSValue
deriving DecidableEq, Repr

/-- The host main-button handle (`Telegram.WebApp.MainButton`); `paramsLog`
records the argument of each host `setParams` call the wrapper forwards. -/
structure HostMainButton where
  text : String
  color : String
  textColor : String
  isVisible : Bool
  isActive : Bool
  isProgressVisible : Bool
  paramsLog : List MainButtonParams
deriving DecidableEq, Repr

/-- The host app handle (`Telegram.WebApp`), with its two optional button
sub-objects forming the third level of the capability chain. -/
structure HostWebAppObj where
  initData : String
  backgroundColor : String
  headerColor : String
  isClosingConfirmationEnabled : Bool
  isVerticalSwipesEnabled : Bool
  backButton : Option HostBackButton
  mainButton : Option HostMainButton
deriving DecidableEq, Repr

/-- The host global `Telegram`, whose `WebApp` sub-object may be absent. -/
structure TelegramGlobal where
  webApp : Option HostWebAppObj
deriving DecidableEq, Repr

/-- The ambient environment: the global `Telegram` object may be absent. -/
structure HostEnv where
  telegram : Option TelegramGlobal
deriving DecidableEq, Repr

namespace BackButton

/-- `BackButton`'s constructor: three existence checks down the capability
chain (`Telegram`, `Telegram.WebApp`, `Telegram.WebApp.BackButton`), each
absence throwing a plain `Error`; on success the handle is cached. -/
def construct (env : HostEnv) : Except JSError HostBackButton :=
  match env.telegram with
  | none => .error (.fatalError "LTelegram: Telegram is not defined.")
  | some tg =>
    match tg.webApp with
    | none => .error (.fatalError "LTelegram: Telegram.WebApp is not defined.")
    | some wa =>
      match wa.backButton with
      | none => .error (.fatalError "LTelegram: Telegram.WebApp.BackButton is not defined.")
      | some bb => .ok bb

/-- The `isVisible` setter: `typeof value !== 'boolean'` throws a
`TypeError`, otherwise the value is forwarded to the host field. -/
def setIsVisible (b : HostBackButton) (v : JSValue) : HostBackButton × Option JSError :=
  match v with
  | .bool x => ({ b with isVisible := x }, none)
  | _ => (b, some (.typeError "LTelegram: value must be a boolean"))

end BackButton

namespace MainButton

/-- `MainButton.isValidHexColor`: `/^#[0-9A-Fa-f]\x7b6\x7d$/.test(value)`,
with `test` coercing a non-string primitive via `String(value)`. -/
def isValidHexColor (v : JSValue) : Bool :=
  hexColorMatch (JSValue.toStr v).data

/-- The `isVisible` setter: boolean check, then forward. -/
def setIsVisible (h : HostMainButton) (v : JSValue) : HostMainButton × Option JSError :=
  match v with
  | .bool x => ({ h with isVisible := x }, none)
  | _ => (h, some (.typeError "LTelegram: value must be a boolean"))

/-- The `isActive` setter: boolean check, then forward. -/
def setIsActive (h : HostMainButton) (v : JSValue) : HostMainButton × Option JSError :=
  match v with
  | .bool x => ({ h with isActive := x }, none)
  | _ => (h, some (.typeError "LTelegram: value must be a boolean"))

/-- The `isProgressVisible` setter: boolean check, then forward. -/
def setIsProgressVisible (h : HostMainButton) (v : JSValue) : HostMainButton × Option JSError :=
  match v with
  | .bool x => ({ h with isProgressVisible := x }, none)
  | _ => (h, some (.typeError "LTelegram: value must be a boolean"))

/-- The `text` setter: string check, then forward. -/
def setText (h : HostMainButton) (v : JSValue) : HostMainButton × Option JSError :=
  match v with
  | .str s => ({ h with text := s }, none)
  | _ => (h, some (.typeError "LTelegram: value must be a string"))

/-- The `color` setter: only the hex-format check (no `typeof` check); a
failing value throws a `ValueError`, a passing one is assigned to the host. -/
def setColor (h : HostMainButton) (v : JSValue) : HostMainButton × Option JSError :=
  if !(isValidHexColor v) then (h, some (.valueError "LTelegram: Invalid hex color value"))
  else ({ h with color := v.toStr }, none)

/-- The `textColor` setter: same shape as the `color` setter. -/
def setTextColor (h : HostMainButton) (v : JSValue) : HostMainButton × Option JSError :=
  if !(isValidHexColor v) then (h, some (.valueError "LTelegram: Invalid hex color value"))
  else ({ h with textColor := v.toStr }, none)

/-- `MainButton`'s constructor: three existence checks down the capability
chain, then the handle is cached and `this.isVisible = true` runs the
`isVisible` setter with `true` (which always succeeds and writes the host
field). -/
def construct (env : HostEnv) : Except JSError HostMainButton :=
  match env.telegram with
  | none => .error (.fatalError "LTelegram: Telegram is not defined.")
  | some tg =>
    match tg.webApp with
    | none => .error (.fatalError "LTelegram: Telegram.WebApp is not defined.")
    | some wa =>
      match wa.mainButton with
      | none => .error (.fatalError "LTelegram: Telegram.WebApp.MainButton is not defined.")
      | some mb => .ok (setIsVisible mb (JSValue.bool true)).1

/-- `setParams`: five guarded checks in source order (`text`, `color`,
`text_color`, `is_active`, `is_visible`), each applied only when the field is
not `undefined`; the first failing check throws and nothing is forwarded;
when all pass, the whole object is forwarded to the host's `setParams`. -/
def setParams (h : HostMainButton) (p : MainButtonParams) : HostMainButton × Option JSError :=
  if p.text != JSValue.undef && !(p.text.isString) then
    (h, some (.typeError "LTelegram: text must be a string"))
  else if p.color != JSValue.undef && !(isValidHexColor p.color) then
    (h, some (.valueError "LTelegram: Invalid hex color value"))
  else if p.text_color != JSValue.undef && !(isValidHexColor p.text_color) then
    (h, some (.valueError "LTelegram: Invalid hex color value"))
  else if p.is_active != JSValue.undef && !(p.is_active.isBoolean) then
    (h, some (.typeError "LTelegram: is_active must be a boolean"))
  else if p.is_visible != JSValue.undef && !(p.is_visible.isBoolean) then
    (h, some (.typeError "LTelegram: is_visible must be a boolean"))
  else
    ({ h with paramsLog := h.paramsLog ++ [p] }, none)

end MainButton

/-- The `WebApp` wrapper's own state: the cached host handle plus the local
`_initData` copy captured from the host at construction. -/
structure WebAppWrapper where
  host : HostWebAppObj
  initDataCache : String
deriving DecidableEq, Repr

namespace WebApp

/-- `WebApp.isValidHexColor`: the same regex test as `MainButton`'s. -/
def isValidHexColor (v : JSValue) : Bool :=
  hexColorMatch (JSValue.toStr v).data

/-- `WebApp`'s constructor: only two existence checks (`Telegram` and
`Telegram.WebApp`); the handle is cached and `_initData` is captured from the
host's live `initData`. -/
def construct (env : HostEnv) : Except JSError WebAppWrapper :=
  match env.telegram with
  | none => .error (.fatalError "LTelegram: Telegram is not defined.")
  | some tg =>
    match tg.webApp with
    | none => .error (.fatalError "LTelegram: Telegram.WebApp is not defined.")
    | some wa => .ok { host := wa, initDataCache := wa.initData }

/-- The `initData` getter: returns the local cache `_initData`. -/
def getInitData (w : WebAppWrapper) : String :=
  w.initDataCache

/-- The `initData` setter: a non-string silently resets the cache to the
host's current live `initData` and returns; a string replaces the cache. -/
def setInitData (w : WebAppWrapper) (v : JSValue) : WebAppWrapper × Option JSError :=
  if !(v.isString) then ({ w with initDataCache := w.host.initData }, none)
  else ({ w with initDataCache := v.toStr }, none)

/-- The `backgroundColor` setter: `typeof` check (`TypeError`), then hex
check (`ValueError`), then forward to the host. -/
def setBackgroundColor (w : WebAppWrapper) (v : JSValue) : WebAppWrapper × Option JSError :=
  if !(v.isString) then (w, some (.typeError "LTelegram: value must be a string"))
  else if !(isValidHexColor v) then (w, some (.valueError "LTelegram: Invalid hex color value"))
  else ({ w with host := { w.host with backgroundColor := v.toStr } }, none)

/-- The `headerColor` setter: same two-stage validation as
`backgroundColor`. -/
def setHeaderColor (w : WebAppWrapper) (v : JSValue) : WebAppWrapper × Option JSError :=
  if !(v.isString) then (w, some (.typeError "LTelegram: value must be a string"))
  else if !(isValidHexColor v) then (w, some (.valueError "LTelegram: Invalid hex color value"))
  else ({ w with host := { w.host with headerColor := v.toStr } }, none)

/-- The `isClosingConfirmationEnabled` setter: boolean check, then forward. -/
def setIsClosingConfirmationEnabled (w : WebAppWrapper) (v : JSValue) :
    WebAppWrapper × Option JSError :=
  match v with
  | .bool x => ({ w with host := { w.host with isClosingConfirmationEnabled := x } }, none)
  | _ => (w, some (.typeError "LTelegram: value must be a boolean"))

/-- The `isVerticalSwipesEnabled` setter: boolean check, then forward. -/
def setIsVerticalSwipesEnabled (w : WebAppWrapper) (v : JSValue) :
    WebAppWrapper × Option JSError :=
  match v with
  | .bool x => ({ w with host := { w.host with isVerticalSwipesEnabled := x } }, none)
  | _ => (w, some (.typeError "LTelegram: value must be a boolean"))

end WebApp

/-- Spec-side reading of the hex character class: a character in `0-9`,
`A-F` or `a-f`. -/
def specHexDigit (c : Char) : Prop :=
  ('0' ≤ c ∧ c ≤ '9') ∨ ('A' ≤ c ∧ c ≤ 'F') ∨ ('a' ≤ c ∧ c ≤ 'f')

/-- The five optional fields of `MainButtonParams`. -/
inductive ParamField where
  | text
  | color
  | text_color
  | is_active
  | is_visible
deriving DecidableEq, Repr

/-- The order in which `setParams` checks the fields in the source. -/
def paramFieldOrder : List ParamField :=
  [ParamField.text, ParamField.color, ParamField.text_color,
   ParamField.is_active, ParamField.is_visible]

/-- The value a params object holds for a field (`undef` when absent). -/
def paramGet (p : MainButtonParams) : ParamField → JSValue
  | .text => p.text
  | .color => p.color
  | .text_color => p.text_color
  | .is_active => p.is_active
  | .is_visible => p.is_visible

/-- Spec-side reading of per-field validity: an absent (`undefined`) field
passes; a defined field passes its kind's check — string for `text`, hex
format for the colors, boolean for the flags. -/
def fieldOk (p : MainButtonParams) (f : ParamField) : Bool :=
  paramGet p f == JSValue.undef ||
    (match f with
     | .text => (paramGet p f).isString
     | .color => MainButton.isValidHexColor (paramGet p f)
     | .text_color => MainButton.isValidHexColor (paramGet p f)
     | .is_active => (paramGet p f).isBoolean
     | .is_visible => (paramGet p f).isBoolean)

/-- The first violating field of a params object, in source check order. -/
def firstBadField (p : MainButtonParams) : Option ParamField :=
  paramFieldOrder.find? (fun f => !(fieldOk p f))

/-- The error kind each field's check raises: a type error for `text`,
`is_active` and `is_visible`, a value error for the two color fields. -/
def fieldErrorIsType : ParamField → Bool
  | .text => true
  | .color => false
  | .text_color => false
  | .is_active => true
  | .is_visible => true

/-- A concrete host back-button state, used to instantiate theorems. -/
def sampleBackButton : HostBackButton :=
  { isVisible := false }

/-- A concrete host main-button state, used to instantiate theorems. -/
def sampleMainButton : HostMainButton :=
  { text := "Continue", color := "#000000", textColor := "#ffffff",
    isVisible := false, isActive := true, isProgressVisible := false,
    paramsLog := [] }

/-- A concrete host app handle, used to instantiate theorems. -/
def sampleWebAppObj : HostWebAppObj :=
  { initData := "query_id=abc", backgroundColor := "#111111",
    headerColor := "#222222", isClosingConfirmationEnabled := false,
    isVerticalSwipesEnabled := true, backButton := some sampleBackButton,
    mainButton := some sampleMainButton }

/-- A concrete complete environment, used to instantiate theorems. -/
def sampleEnv : HostEnv :=
  { telegram := some { webApp := some sampleWebAppObj } }

/-- A concrete `WebApp` wrapper state whose cache diverges from the host's
live `initData`, used to instantiate theorems. -/
def sampleWrapper : WebAppWrapper :=
  { host := sampleWebAppObj, initDataCache := "stale" }

lemma isHexDigitChar_iff (c : Char) : isHexDigitChar c = true ↔ specHexDigit c := by
  simp [isHexDigitChar, specHexDigit, or_assoc]

lemma hexColorMatch_iff (l : List Char) :
    hexColorMatch l = true ↔
      ∃ rest : List Char, l = '#' :: rest ∧ rest.length = 6 ∧ ∀ c ∈ rest, specHexDigit c := by
  constructor
  · intro h
    unfold hexColorMatch at h
    split at h
    next c1 c2 c3 c4 c5 c6 =>
      simp only [Bool.and_eq_true] at h
      obtain ⟨⟨⟨⟨⟨h1, h2⟩, h3⟩, h4⟩, h5⟩, h6⟩ := h
      refine ⟨[c1, c2, c3, c4, c5, c6], rfl, rfl, ?_⟩
      intro c hc
      simp only [List.mem_cons, List.not_mem_nil, or_false] at hc
      rcases hc with rfl | rfl | rfl | rfl | rfl | rfl
      · exact (isHexDigitChar_iff _).mp h1
      · exact (isHexDigitChar_iff _).mp h2
      · exact (isHexDigitChar_iff _).mp h3
      · exact (isHexDigitChar_iff _).mp h4
      · exact (isHexDigitChar_iff _).mp h5
      · exact (isHexDigitChar_iff _).mp h6
    next => exact absurd h (by simp)
  · rintro ⟨rest, rfl, hlen, hall⟩
    rcases rest with _ | ⟨a1, _ | ⟨a2, _ | ⟨a3, _ | ⟨a4, _ | ⟨a5, _ | ⟨a6, _ | ⟨a7, t⟩⟩⟩⟩⟩⟩⟩ <;>
        simp only [List.length_cons, List.length_nil] at hlen <;>
      try omega
    have h1 := (isHexDigitChar_iff a1).mpr (hall a1 (by simp))
    have h2 := (isHexDigitChar_iff a2).mpr (hall a2 (by simp))
    have h3 := (isHexDigitChar_iff a3).mpr (hall a3 (by simp))
    have h4 := (isHexDigitChar_iff a4).mpr (hall a4 (by simp))
    have h5 := (isHexDigitChar_iff a5).mpr (hall a5 (by simp))
    have h6 := (isHexDigitChar_iff a6).mpr (hall a6 (by simp))
    simp [hexColorMatch, h1, h2, h3, h4, h5, h6]

lemma digitChar_ne_hash (d : Nat) : digitChar d ≠ '#' := by
  unfold digitChar
  split <;> decide

lemma natDigitsAux_ne_hash (fuel : Nat) : ∀ n, ∀ c ∈ natDigitsAux fuel n, c ≠ '#' := by
  induction fuel with
  | zero => simp [natDigitsAux]
  | succ k ih =>
    intro n c hc
    rw [natDigitsAux] at hc
    split at hc
    · simp only [List.mem_singleton] at hc
      exact hc ▸ digitChar_ne_hash n
    · rcases List.mem_append.mp hc with h1 | h2
      · exact ih (n / 10) c h1
      · simp only [List.mem_singleton] at h2
        exact h2 ▸ digitChar_ne_hash (n % 10)

lemma natDigits_ne_hash (n : Nat) : ∀ c ∈ natDigits n, c ≠ '#' :=
  natDigitsAux_ne_hash (n + 1) n

lemma hexColorMatch_head (l : List Char) (h : hexColorMatch l = true) :
    l.head? = some '#' := by
  unfold hexColorMatch at h
  split at h <;> simp_all

lemma nonstring_not_hex (v : JSValue) (hv : v.isString = false) :
    hexColorMatch (JSValue.toStr v).data = false := by
  cases v with
  | str s => simp [JSValue.isString] at hv
  | bool b => cases b <;> decide
  | undef => decide
  | null => decide
  | num n =>
    by_cases hn : n < 0 <;>
        simp only [JSValue.toStr, hn, if_pos, if_neg, not_false_eq_true] <;>
      rcases hm : hexColorMatch _ with _ | _
    · rfl
    · have := hexColorMatch_head _ hm
      simp at this
    · rfl
    · have hh := hexColorMatch_head _ hm
      rcases hl : natDigits n.natAbs with _ | ⟨a, as⟩
      · rw [hl] at hh
        simp at hh
      · rw [hl] at hh
        simp only [List.head?_cons, Option.some.injEq] at hh
        exact absurd hh (natDigits_ne_hash n.natAbs a (hl ▸ List.mem_cons_self a as))

/-- Claim C1: the shared hex-color validator (`MainButton.isValidHexColor`
and `WebApp.isValidHexColor` are the same test) accepts a string exactly when
it is `#` followed by six characters of `[0-9A-Fa-f]`, and rejects every
other string. -/
theorem c1_hex_validator_characterization :
    ∀ s : String,
      MainButton.isValidHexColor (JSValue.str s) = WebApp.isValidHexColor (JSValue.str s) ∧
      (MainButton.isValidHexColor (JSValue.str s) = true ↔
        ∃ rest : List Char, s.data = '#' :: rest ∧ rest.length = 6 ∧
          ∀ c ∈ rest, specHexDigit c) := by
  intro s
  exact ⟨rfl, by simpa [MainButton.isValidHexColor, JSValue.toStr] using hexColorMatch_iff s.data⟩

/-- Claim C3: every boolean-typed property setter rejects a non-boolean
value with a type error, leaving the host state unchanged, and forwards a
boolean value to its host field. -/
theorem c3_boolean_setters :
    ∀ (v : JSValue) (bb : HostBackButton) (mb : HostMainButton) (w : WebAppWrapper),
      (v.isBoolean = false →
        BackButton.setIsVisible bb v =
          (bb, some (JSError.typeError "LTelegram: value must be a boolean")) ∧
        MainButton.setIsVisible mb v =
          (mb, some (JSError.typeError "LTelegram: value must be a boolean")) ∧
        MainButton.setIsActive mb v =
          (mb, some (JSError.typeError "LTelegram: value must be a boolean")) ∧
        MainButton.setIsProgressVisible mb v =
          (mb, some (JSError.typeError "LTelegram: value must be a boolean")) ∧
        WebApp.setIsClosingConfirmationEnabled w v =
          (w, some (JSError.typeError "LTelegram: value must be a boolean")) ∧
        WebApp.setIsVerticalSwipesEnabled w v =
          (w, some (JSError.typeError "LTelegram: value must be a boolean"))) ∧
      (∀ b : Bool, v = JSValue.bool b →
        BackButton.setIsVisible bb v = ({ bb with isVisible := b }, none) ∧
        MainButton.setIsVisible mb v = ({ mb with isVisible := b }, none) ∧
        MainButton.setIsActive mb v = ({ mb with isActive := b }, none) ∧
        MainButton.setIsProgressVisible mb v = ({ mb with isProgressVisible := b }, none) ∧
        WebApp.setIsClosingConfirmationEnabled w v =
          ({ w with host := { w.host with isClosingConfirmationEnabled := b } }, none) ∧
        WebApp.setIsVerticalSwipesEnabled w v =
          ({ w with host := { w.host with isVerticalSwipesEnabled := b } }, none)) := by
  intro v bb mb w
  cases v <;>
    simp_all [JSValue.isBoolean, BackButton.setIsVisible, MainButton.setIsVisible,
      MainButton.setIsActive, MainButton.setIsProgressVisible,
      WebApp.setIsClosingConfirmationEnabled, WebApp.setIsVerticalSwipesEnabled]

/-- Claim C5: the `initData` getter returns the local cache; construction
captures the host's `initData` into the cache; assigning a string replaces
the cache with exactly that string; assigning a non-string raises no error
and resets the cache to the host's current live `initData`. -/
theorem c5_initdata_cache :
    ∀ (w : WebAppWrapper) (v : JSValue) (env : HostEnv) (tg : TelegramGlobal)
      (wa : HostWebAppObj),
      (WebApp.getInitData w = w.initDataCache) ∧
      (env.telegram = some tg → tg.webApp = some wa →
        ∃ w0, WebApp.construct env = Except.ok w0 ∧ WebApp.getInitData w0 = wa.initData) ∧
      (∀ s, v = JSValue.str s →
        WebApp.setInitData w v = ({ w with initDataCache := s }, none)) ∧
      (v.isString = false →
        WebApp.setInitData w v = ({ w with initDataCache := w.host.initData }, none)) := by
  intro w v env tg wa
  refine ⟨rfl, ?_, ?_, ?_⟩
  · intro h1 h2
    exact ⟨{ host := wa, initDataCache := wa.initData },
      by simp [WebApp.construct, h1, h2], rfl⟩
  · rintro s rfl
    simp [WebApp.setInitData, JSValue.isString, JSValue.toStr]
  · intro hv
    cases v <;> simp_all [WebApp.setInitData, JSValue.isString]

/-- Claim C6: `WebApp`'s `backgroundColor` and `headerColor` setters raise a
type error on a non-string, a value error on a string failing the hex check
(leaving the host unchanged in both cases), and forward a matching string to
the host. -/
theorem c6_webapp_color_setters :
    ∀ (w : WebAppWrapper) (v : JSValue),
      (v.isString = false →
        WebApp.setBackgroundColor w v =
          (w, some (JSError.typeError "LTelegram: value must be a string")) ∧
        WebApp.setHeaderColor w v =
          (w, some (JSError.typeError "LTelegram: value must be a string"))) ∧
      (∀ s, v = JSValue.str s → WebApp.isValidHexColor v = false →
        WebApp.setBackgroundColor w v =
          (w, some (JSError.valueError "LTelegram: Invalid hex color value")) ∧
        WebApp.setHeaderColor w v =
          (w, some (JSError.valueError "LTelegram: Invalid hex color value"))) ∧
      (∀ s, v = JSValue.str s → WebApp.isValidHexColor v = true →
        WebApp.setBackgroundColor w v =
          ({ w with host := { w.host with backgroundColor := s } }, none) ∧
        WebApp.setHeaderColor w v =
          ({ w with host := { w.host with headerColor := s } }, none)) := by
  intro w v
  refine ⟨?_, ?_, ?_⟩
  · intro hv
    cases v <;> simp_all [WebApp.setBackgroundColor, WebApp.setHeaderColor, JSValue.isString]
  · rintro s rfl hhex
    simp_all [WebApp.setBackgroundColor, WebApp.setHeaderColor, JSValue.isString]
  · rintro s rfl hhex
    simp_all [WebApp.setBackgroundColor, WebApp.setHeaderColor, JSValue.isString,
      JSValue.toStr]

/-- Claim C7: `MainButton`'s `color` and `textColor` setters apply only the
hex-format check; any failing value — in particular every non-string
primitive, which never matches the regex — raises a value error (never a
type error) with the host unchanged, and a matching string is forwarded. -/
theorem c7_mainbutton_color_value_error_only :
    ∀ (h : HostMainButton) (v : JSValue),
      (MainButton.isValidHexColor v = false →
        MainButton.setColor h v =
          (h, some (JSError.valueError "LTelegram: Invalid hex color value")) ∧
        MainButton.setTextColor h v =
          (h, some (JSError.valueError "LTelegram: Invalid hex color value"))) ∧
      (v.isString = false → MainButton.isValidHexColor v = false) ∧
      (∀ s, v = JSValue.str s → MainButton.isValidHexColor v = true →
        MainButton.setColor h v = ({ h with color := s }, none) ∧
        MainButton.setTextColor h v = ({ h with textColor := s }, none)) := by
  intro h v
  refine ⟨?_, ?_, ?_⟩
  · intro hhex
    simp_all [MainButton.setColor, MainButton.setTextColor]
  · intro hv
    exact nonstring_not_hex v hv
  · rintro s rfl hhex
    simp_all [MainButton.setColor, MainButton.setTextColor, JSValue.toStr]

/-- Claim C8: when the capability chain resolves, `MainButton`'s constructor
returns the host handle with `isVisible` forced to `true`, whatever the
prior host value was. -/
theorem c8_construct_forces_visible :
    ∀ (env : HostEnv) (tg : TelegramGlobal) (wa : HostWebAppObj) (mb : HostMainButton),
      env.telegram = some tg → tg.webApp = some wa → wa.mainButton = some mb →
      MainButton.construct env = Except.ok { mb with isVisible := true } ∧
      ({ mb with isVisible := true } : HostMainButton).isVisible = true := by
  intro env tg wa mb h1 h2 h3
  refine ⟨?_, rfl⟩
  simp [MainButton.construct, MainButton.setIsVisible, h1, h2, h3]

/-- Witness for C8 at a concrete environment whose main button starts with
`isVisible = false`. -/
theorem c8_construct_forces_visible_witness :
    MainButton.construct sampleEnv = Except.ok { sampleMainButton with isVisible := true } ∧
    ({ sampleMainButton with isVisible := true } : HostMainButton).isVisible = true :=
  c8_construct_forces_visible sampleEnv { webApp := some sampleWebAppObj }
    sampleWebAppObj sampleMainButton rfl rfl rfl

/-- Claim C9: a missing capability chain makes construction fail with the
fatal error naming the first absent level; `BackButton` and `MainButton`
check three levels, while `WebApp` checks only the top two and succeeds
whatever the third level holds. -/
theorem c9_construction_checks :
    ∀ (env : HostEnv) (tg : TelegramGlobal) (wa : HostWebAppObj),
      (env.telegram = none →
        BackButton.construct env =
          Except.error (JSError.fatalError "LTelegram: Telegram is not defined.") ∧
        MainButton.construct env =
          Except.error (JSError.fatalError "LTelegram: Telegram is not defined.") ∧
        WebApp.construct env =
          Except.error (JSError.fatalError "LTelegram: Telegram is not defined.")) ∧
      (env.telegram = some tg → tg.webApp = none →
        BackButton.construct env =
          Except.error (JSError.fatalError "LTelegram: Telegram.WebApp is not defined.") ∧
        MainButton.construct env =
          Except.error (JSError.fatalError "LTelegram: Telegram.WebApp is not defined.") ∧
        WebApp.construct env =
          Except.error (JSError.fatalError "LTelegram: Telegram.WebApp is not defined.")) ∧
      (env.telegram = some tg → tg.webApp = some wa →
        (wa.backButton = none →
          BackButton.construct env =
            Except.error
              (JSError.fatalError "LTelegram: Telegram.WebApp.BackButton is not defined.")) ∧
        (wa.mainButton = none →
          MainButton.construct env =
            Except.error
              (JSError.fatalError "LTelegram: Telegram.WebApp.MainButton is not defined.")) ∧
        WebApp.construct env = Except.ok { host := wa, initDataCache := wa.initData }) := by
  intro env tg wa
  refine ⟨?_, ?_, ?_⟩
  · intro h1
    exact ⟨by simp [BackButton.construct, h1], by simp [MainButton.construct, h1],
      by simp [WebApp.construct, h1]⟩
  · intro h1 h2
    exact ⟨by simp [BackButton.construct, h1, h2], by simp [MainButton.construct, h1, h2],
      by simp [WebApp.construct, h1, h2]⟩
  · intro h1 h2
    refine ⟨?_, ?_, by simp [WebApp.construct, h1, h2]⟩
    · intro h3
      simp [BackButton.construct, h1, h2, h3]
    · intro h3
      simp [MainButton.construct, h1, h2, h3]

lemma cond_text (p : MainButtonParams) :
    (p.text != JSValue.undef && !(p.text.isString)) = !(fieldOk p ParamField.text) := by
  simp [fieldOk, paramGet, Bool.not_or, bne]

lemma cond_color (p : MainButtonParams) :
    (p.color != JSValue.undef && !(MainButton.isValidHexColor p.color)) =
      !(fieldOk p ParamField.color) := by
  simp [fieldOk, paramGet, Bool.not_or, bne]

lemma cond_text_color (p : MainButtonParams) :
    (p.text_color != JSValue.undef && !(MainButton.isValidHexColor p.text_color)) =
      !(fieldOk p ParamField.text_color) := by
  simp [fieldOk, paramGet, Bool.not_or, bne]

lemma cond_is_active (p : MainButtonParams) :
    (p.is_active != JSValue.undef && !(p.is_active.isBoolean)) =
      !(fieldOk p ParamField.is_active) := by
  simp [fieldOk, paramGet, Bool.not_or, bne]

lemma cond_is_visible (p : MainButtonParams) :
    (p.is_visible != JSValue.undef && !(p.is_visible.isBoolean)) =
      !(fieldOk p ParamField.is_visible) := by
  simp [fieldOk, paramGet, Bool.not_or, bne]

/-- `setParams` is determined by the first violating field in source check
order: that field's error with the host untouched, or, with no violating
field, one host `setParams` call carrying the whole object. -/
lemma setParams_spec (h : HostMainButton) (p : MainButtonParams) :
    MainButton.setParams h p =
      match firstBadField p with
      | some ParamField.text => (h, some (JSError.typeError "LTelegram: text must be a string"))
      | some ParamField.color =>
          (h, some (JSError.valueError "LTelegram: Invalid hex color value"))
      | some ParamField.text_color =>
          (h, some (JSError.valueError "LTelegram: Invalid hex color value"))
      | some ParamField.is_active =>
          (h, some (JSError.typeError "LTelegram: is_active must be a boolean"))
      | some ParamField.is_visible =>
          (h, some (JSError.typeError "LTelegram: is_visible must be a boolean"))
      | none => ({ h with paramsLog := h.paramsLog ++ [p] }, none) := by
  rcases ht : fieldOk p ParamField.text with _ | _
  · simp [MainButton.setParams, firstBadField, paramFieldOrder, List.find?,
      cond_text, ht]
  · rcases hc : fieldOk p ParamField.color with _ | _
    · simp [MainButton.setParams, firstBadField, paramFieldOrder, List.find?,
        cond_text, cond_color, ht, hc]
    · rcases htc : fieldOk p ParamField.text_color with _ | _
      · simp [MainButton.setParams, firstBadField, paramFieldOrder, List.find?,
          cond_text, cond_color, cond_text_color, ht, hc, htc]
      · rcases ha : fieldOk p ParamField.is_active with _ | _
        · simp [MainButton.setParams, firstBadField, paramFieldOrder, List.find?,
            cond_text, cond_color, cond_text_color, cond_is_active, ht, hc, htc, ha]
        · rcases hv : fieldOk p ParamField.is_visible with _ | _ <;>
            simp [MainButton.setParams, firstBadField, paramFieldOrder, List.find?,
              cond_text, cond_color, cond_text_color, cond_is_active, cond_is_visible,
              ht, hc, htc, ha, hv]

/-- Claim C2: `setParams` validates each defined field independently; when
every defined field passes, the whole object is forwarded unmodified to the
host's `setParams`; otherwise the first violating field's error kind is
raised and the host is not mutated at all. -/
theorem c2_setparams_validation :
    ∀ (h : HostMainButton) (p : MainButtonParams),
      ((∀ f ∈ paramFieldOrder, fieldOk p f = true) →
        MainButton.setParams h p = ({ h with paramsLog := h.paramsLog ++ [p] }, none)) ∧
      (∀ f, firstBadField p = some f →
        (MainButton.setParams h p).1 = h ∧
        ∃ msg, (MainButton.setParams h p).2 =
          some (if fieldErrorIsType f then JSError.typeError msg
                else JSError.valueError msg)) := by
  intro h p
  constructor
  · intro hall
    have hnone : firstBadField p = none := by
      simp only [firstBadField, List.find?_eq_none]
      intro f hf
      simp [hall f hf]
    rw [setParams_spec, hnone]
  · intro f hf
    rw [setParams_spec, hf]
    cases f
    · exact ⟨rfl, "LTelegram: text must be a string", by simp [fieldErrorIsType]⟩
    · exact ⟨rfl, "LTelegram: Invalid hex color value", by simp [fieldErrorIsType]⟩
    · exact ⟨rfl, "LTelegram: Invalid hex color value", by simp [fieldErrorIsType]⟩
    · exact ⟨rfl, "LTelegram: is_active must be a boolean", by simp [fieldErrorIsType]⟩
    · exact ⟨rfl, "LTelegram: is_visible must be a boolean", by simp [fieldErrorIsType]⟩

/-- Claim C10: `setParams` checks the fields in the fixed order `text`,
`color`, `text_color`, `is_active`, `is_visible`; the error raised is the
one of the first invalid field in that order, whatever the later fields
hold. -/
theorem c10_setparams_check_order :
    ∀ (h : HostMainButton) (p : MainButtonParams),
      (fieldOk p ParamField.text = false →
        MainButton.setParams h p =
          (h, some (JSError.typeError "LTelegram: text must be a string"))) ∧
      (fieldOk p ParamField.text = true → fieldOk p ParamField.color = false →
        MainButton.setParams h p =
          (h, some (JSError.valueError "LTelegram: Invalid hex color value"))) ∧
      (fieldOk p ParamField.text = true → fieldOk p ParamField.color = true →
        fieldOk p ParamField.text_color = false →
        MainButton.setParams h p =
          (h, some (JSError.valueError "LTelegram: Invalid hex color value"))) ∧
      (fieldOk p ParamField.text = true → fieldOk p ParamField.color = true →
        fieldOk p ParamField.text_color = true → fieldOk p ParamField.is_active = false →
        MainButton.setParams h p =
          (h, some (JSError.typeError "LTelegram: is_active must be a boolean"))) ∧
      (fieldOk p ParamField.text = true → fieldOk p ParamField.color = true →
        fieldOk p ParamField.text_color = true → fieldOk p ParamField.is_active = true →
        fieldOk p ParamField.is_visible = false →
        MainButton.setParams h p =
          (h, some (JSError.typeError "LTelegram: is_visible must be a boolean"))) := by
  intro h p
  refine ⟨?_, ?_, ?_, ?_, ?_⟩
  · intro h1
    rw [setParams_spec]
    have : firstBadField p = some ParamField.text := by
      simp [firstBadField, paramFieldOrder, List.find?, h1]
    rw [this]
  · intro h1 h2
    rw [setParams_spec]
    have : firstBadField p = some ParamField.color := by
      simp [firstBadField, paramFieldOrder, List.find?, h1, h2]
    rw [this]
  · intro h1 h2 h3
    rw [setParams_spec]
    have : firstBadField p = some ParamField.text_color := by
      simp [firstBadField, paramFieldOrder, List.find?, h1, h2, h3]
    rw [this]
  · intro h1 h2 h3 h4
    rw [setParams_spec]
    have : firstBadField p = some ParamField.is_active := by
      simp [firstBadField, paramFieldOrder, List.find?, h1, h2, h3, h4]
    rw [this]
  · intro h1 h2 h3 h4 h5
    rw [setParams_spec]
    have : firstBadField p = some ParamField.is_visible := by
      simp [firstBadField, paramFieldOrder, List.find?, h1, h2, h3, h4, h5]
    rw [this]

lemma foldl_runHandler_calls (hs : List Handler) (s : ClickState) :
    (hs.foldl runHandler s).calls = s.calls ++ hs.map Handler.cbId := by
  induction hs generalizing s with
  | nil => simp
  | cons h t ih =>
    rw [List.foldl_cons, ih]
    cases h <;> simp [runHandler, Handler.cbId]

lemma foldl_runHandler_registry_count (hs : List Handler) (s : ClickState) (i : Nat)
    (hne : ∀ h ∈ hs, h.cbId ≠ i) :
    ((hs.foldl runHandler s).registry).count (Handler.onceWrapper i) =
      (s.registry).count (Handler.onceWrapper i) := by
  induction hs generalizing s with
  | nil => rfl
  | cons h t ih =>
    rw [List.foldl_cons, ih _ (fun x hx => hne x (List.mem_cons_of_mem _ hx))]
    cases h with
    | user j => rfl
    | onceWrapper j =>
      have hj : Handler.onceWrapper i ≠ Handler.onceWrapper j := by
        have := hne _ (List.mem_cons_self (Handler.onceWrapper j) t)
        simp only [Handler.cbId] at this
        simp [Ne, this.symm]
      show ((s.registry).erase (Handler.onceWrapper j)).count (Handler.onceWrapper i) =
        (s.registry).count (Handler.onceWrapper i)
      exact List.count_erase_of_ne hj _

lemma foldl_runHandler_registry_subset (hs : List Handler) (s : ClickState) :
    ((hs.foldl runHandler s).registry) ⊆ s.registry := by
  induction hs generalizing s with
  | nil => exact fun x hx => hx
  | cons h t ih =>
    intro x hx
    have hx2 := ih (runHandler s h) hx
    cases h with
    | user j => exact hx2
    | onceWrapper j => exact List.erase_subset _ _ hx2

/-- Claim C4: after `onceClick(cb)` in a registry with no other handler for
`cb`, the first click event invokes `cb` exactly once and deregisters the
wrapper, and a second click event does not invoke `cb` again. -/
theorem c4_once_click :
    ∀ (r : List Handler) (i : Nat), (∀ h ∈ r, h.cbId ≠ i) →
      ((clickEvent (onceClick ⟨r, []⟩ i)).calls.count i = 1 ∧
        Handler.onceWrapper i ∉ (clickEvent (onceClick ⟨r, []⟩ i)).registry ∧
        (clickEvent (clickEvent (onceClick ⟨r, []⟩ i))).calls.count i = 1) := by
  intro r i hne
  have hw : Handler.cbId (Handler.onceWrapper i) = i := rfl
  have hwr : Handler.onceWrapper i ∉ r := fun hmem => hne _ hmem hw
  have hs0 : onceClick ⟨r, []⟩ i = ⟨r ++ [Handler.onceWrapper i], []⟩ := rfl
  -- the first click dispatches the snapshot r ++ [wrapper]
  have hsplit :
      clickEvent (onceClick ⟨r, []⟩ i) =
        runHandler ((r.foldl runHandler ⟨r ++ [Handler.onceWrapper i], []⟩))
          (Handler.onceWrapper i) := by
    rw [hs0]
    show (r ++ [Handler.onceWrapper i]).foldl runHandler _ = _
    rw [List.foldl_append, List.foldl_cons, List.foldl_nil]
  set smid := r.foldl runHandler (⟨r ++ [Handler.onceWrapper i], []⟩ : ClickState) with hsmid
  have hmidcalls : smid.calls = r.map Handler.cbId := by
    rw [hsmid, foldl_runHandler_calls]
    rfl
  have hmidcount : (smid.registry).count (Handler.onceWrapper i) = 1 := by
    rw [hsmid, foldl_runHandler_registry_count _ _ _ hne]
    show ((r ++ [Handler.onceWrapper i]).count (Handler.onceWrapper i)) = 1
    rw [List.count_append]
    simp [List.count_eq_zero.mpr hwr]
  have hmidsub : smid.registry ⊆ r ++ [Handler.onceWrapper i] := by
    rw [hsmid]
    exact foldl_runHandler_registry_subset _ _
  have hs1 : clickEvent (onceClick ⟨r, []⟩ i) =
      ⟨smid.registry.erase (Handler.onceWrapper i), smid.calls ++ [i]⟩ := by
    rw [hsplit]
    rfl
  have hnoi : ∀ j ∈ r.map Handler.cbId, ¬(j = i) := by
    intro j hj
    obtain ⟨x, hx, rfl⟩ := List.mem_map.mp hj
    exact hne x hx
  have hcount1 : (smid.calls ++ [i]).count i = 1 := by
    rw [List.count_append, hmidcalls]
    rw [List.count_eq_zero.mpr (fun hmem => hnoi i hmem rfl)]
    simp
  have hgone :
      Handler.onceWrapper i ∉ smid.registry.erase (Handler.onceWrapper i) := by
    rw [← List.count_pos_iff, List.count_erase_self, hmidcount]
    omega
  refine ⟨by rw [hs1]; exact hcount1, by rw [hs1]; exact hgone, ?_⟩
  -- second click: every surviving handler is for another callback
  have hsur : ∀ h ∈ (clickEvent (onceClick ⟨r, []⟩ i)).registry, Handler.cbId h ≠ i := by
    rw [hs1]
    intro h hmem
    have hne2 : h ≠ Handler.onceWrapper i := by
      intro heq
      exact hgone (heq ▸ hmem)
    have : h ∈ r ++ [Handler.onceWrapper i] :=
      hmidsub (List.erase_subset _ _ hmem)
    rcases List.mem_append.mp this with hr | hw2
    · exact hne _ hr
    · exact absurd (List.mem_singleton.mp hw2) hne2
  show ((clickEvent (onceClick ⟨r, []⟩ i)).registry.foldl runHandler
      (clickEvent (onceClick ⟨r, []⟩ i))).calls.count i = 1
  rw [foldl_runHandler_calls, List.count_append, hs1, hcount1]
  have : ((⟨smid.registry.erase (Handler.onceWrapper i), smid.calls ++ [i]⟩ :
      ClickState).registry.map Handler.cbId).count i = 0 := by
    apply List.count_eq_zero.mpr
    intro hmem
    obtain ⟨x, hx, hxi⟩ := List.mem_map.mp hmem
    exact hsur x (by rw [hs1]; exact hx) hxi
  rw [this]

/-- Witness for C4: a prior registry holding one unrelated user callback. -/
theorem c4_once_click_witness :
    (clickEvent (onceClick ⟨[Handler.user 1], []⟩ 0)).calls.count 0 = 1 ∧
    Handler.onceWrapper 0 ∉ (clickEvent (onceClick ⟨[Handler.user 1], []⟩ 0)).registry ∧
    (clickEvent (clickEvent (onceClick ⟨[Handler.user 1], []⟩ 0))).calls.count 0 = 1 :=
  c4_once_click [Handler.user 1] 0 (by decide)

end TsMiniApps
